import Mathlib

/-
Verification of the flag-provider script `.ycm_extra_conf.py`.

The script exposes a single function `FlagsForFile(filename, **kwargs)`:

    def FlagsForFile(filename, **kwargs):
        flags = ['-std=c++14', '-I/usr/local/include', '-I.']
        py_includes = subprocess.check_output(
            ['python3-config', '--includes']
        ).decode('utf-8').split()
        flags.extend(py_includes)
        proj_dir = os.path.dirname(os.path.realpath(__file__))
        proj_include = os.path.join(proj_dir, 'include')
        flags.append('-I' + proj_include)
        return {'flags': flags}

We shallowly embed the function over an explicit environment that records
the outcome of the one external process invocation and the resolved path
of the configuration file itself.  Fallible operations return `Except`.
-/

/-- The ambient environment of one invocation: whether the helper program
`python3-config` can be found on the search path, its exit status, the raw
bytes it writes to standard output, and the result of
`os.path.realpath(__file__)` for the configuration script. -/
structure Env where
  helperFound : Bool
  helperExit : Nat
  helperStdout : List Nat
  confRealpath : String
deriving DecidableEq

/-- The unhandled Python exceptions that the script can propagate:
`FileNotFoundError` from `subprocess`, `CalledProcessError` from
`check_output` on a non-zero exit status, and `UnicodeDecodeError` from
`bytes.decode`. -/
inductive PyError where
  | fileNotFoundError : PyError
  | calledProcessError (returncode : Nat) : PyError
  | unicodeDecodeError : PyError
deriving DecidableEq

/-- Externally visible effects of one invocation. -/
inductive Effect where
  | spawn (cmd : List String) : Effect
  | fsWrite (path : String) : Effect
  | network : Effect
deriving DecidableEq

/-- Model of `subprocess.check_output(cmd)`: raises `FileNotFoundError`
when the program is absent from the search path, raises
`CalledProcessError` on a non-zero exit status, and otherwise returns the
captured standard-output bytes. -/
def check_output (env : Env) : Except PyError (List Nat) :=
  if env.helperFound then
    if env.helperExit = 0 then Except.ok env.helperStdout
    else Except.error (PyError.calledProcessError env.helperExit)
  else Except.error PyError.fileNotFoundError

/-- Is the byte a UTF-8 continuation byte (0x80..0xBF)? -/
def contByte (b : Nat) : Bool := 0x80 ≤ b && b ≤ 0xBF

/-- Strict UTF-8 decoding of a byte list to code points, as performed by
Python's `bytes.decode('utf-8')`: rejects overlong encodings, surrogates,
truncated sequences, stray continuation bytes and code points above
0x10FFFF. -/
def utf8DecodeAux : List Nat → Option (List Char)
  | [] => some []
  | b :: rest =>
    if b < 0x80 then
      (utf8DecodeAux rest).map (fun cs => Char.ofNat b :: cs)
    else if 0xC2 ≤ b && b ≤ 0xDF then
      match rest with
      | c1 :: rest1 =>
        if contByte c1 then
          (utf8DecodeAux rest1).map (fun cs =>
            Char.ofNat ((b - 0xC0) * 0x40 + (c1 - 0x80)) :: cs)
        else none
      | [] => none
    else if 0xE0 ≤ b && b ≤ 0xEF then
      match rest with
      | c1 :: c2 :: rest2 =>
        if (if b = 0xE0 then 0xA0 ≤ c1 && c1 ≤ 0xBF
            else if b = 0xED then 0x80 ≤ c1 && c1 ≤ 0x9F
            else contByte c1) && contByte c2 then
          (utf8DecodeAux rest2).map (fun cs =>
            Char.ofNat ((b - 0xE0) * 0x1000 + (c1 - 0x80) * 0x40 + (c2 - 0x80)) :: cs)
        else none
      | _ => none
    else if 0xF0 ≤ b && b ≤ 0xF4 then
      match rest with
      | c1 :: c2 :: c3 :: rest3 =>
        if (if b = 0xF0 then 0x90 ≤ c1 && c1 ≤ 0xBF
            else if b = 0xF4 then 0x80 ≤ c1 && c1 ≤ 0x8F
            else contByte c1) && contByte c2 && contByte c3 then
          (utf8DecodeAux rest3).map (fun cs =>
            Char.ofNat ((b - 0xF0) * 0x40000 + (c1 - 0x80) * 0x1000 +
              (c2 - 0x80) * 0x40 + (c3 - 0x80)) :: cs)
        else none
      | _ => none
    else none

/-- Model of `bytes.decode('utf-8')`. -/
def utf8Decode (bs : List Nat) : Option String :=
  (utf8DecodeAux bs).map String.mk

/-- The characters Python's `str.split()` (no separator argument) treats
as whitespace: exactly the Unicode whitespace characters of `str.isspace`. -/
def isPySpace (c : Char) : Bool :=
  ([9, 10, 11, 12, 13, 28, 29, 30, 31, 32, 0x85, 0xA0, 0x1680,
    0x2000, 0x2001, 0x2002, 0x2003, 0x2004, 0x2005, 0x2006, 0x2007,
    0x2008, 0x2009, 0x200A, 0x2028, 0x2029, 0x202F, 0x205F, 0x3000] :
    List Nat).contains c.toNat

/-- Accumulator worker for `str.split()`: `acc` holds the characters of the
word currently being read, in reverse. -/
def pySplitAux : List Char → List Char → List String
  | [], acc => if acc.isEmpty then [] else [String.mk acc.reverse]
  | c :: rest, acc =>
    if isPySpace c then
      if acc.isEmpty then pySplitAux rest []
      else String.mk acc.reverse :: pySplitAux rest []
    else pySplitAux rest (c :: acc)

/-- Model of Python's `str.split()` with no arguments: split on runs of
whitespace, discarding leading and trailing whitespace, never producing an
empty token. -/
def pySplit (s : String) : List String := pySplitAux s.data []

/-- Does the path start with the separator, as in `b.startswith('/')`? -/
def startsWithSlash (s : String) : Bool := s.data.head? == some '/'

/-- Does the path end with the separator, as in `path.endswith('/')`? -/
def endsWithSlash (s : String) : Bool := s.data.getLast? == some '/'

/-- Model of `os.path.join(a, b)` (POSIX, one component): an absolute `b`
replaces `a`; otherwise `b` is appended, inserting a separator unless `a`
is empty or already ends with one. -/
def joinPath (a b : String) : String :=
  if startsWithSlash b then b
  else if a.data.isEmpty || endsWithSlash a then a ++ b
  else a ++ "/" ++ b

/-- Model of `os.path.dirname(p)` (POSIX): everything up to and including
the last separator, with trailing separators then stripped unless the head
is empty or consists solely of separators. -/
def dirname (s : String) : String :=
  let headRev := s.data.reverse.dropWhile (fun c => c != '/')
  if headRev.isEmpty || headRev.all (fun c => c == '/') then
    String.mk headRev.reverse
  else
    String.mk ((headRev.dropWhile (fun c => c == '/')).reverse)

/-- The embedding of `FlagsForFile`, additionally returning the list of
external effects performed.  `subprocess.check_output` launches exactly one
child process (also when the launch subsequently fails); nothing else in
the function writes to any store or touches the network.  The returned
dictionary `{'flags': flags}` is modelled as an association list. -/
def FlagsForFileRun (env : Env) (filename : String)
    (kwargs : List (String × String)) :
    Except PyError (List (String × List String)) × List Effect :=
  let flags0 := ["-std=c++14", "-I/usr/local/include", "-I."]
  let trace := [Effect.spawn ["python3-config", "--includes"]]
  match check_output env with
  | Except.error e => (Except.error e, trace)
  | Except.ok outBytes =>
    match utf8Decode outBytes with
    | none => (Except.error PyError.unicodeDecodeError, trace)
    | some outText =>
      let py_includes := pySplit outText
      let flags1 := flags0 ++ py_includes
      let proj_dir := dirname env.confRealpath
      let proj_include := joinPath proj_dir "include"
      let flags2 := flags1 ++ ["-I" ++ proj_include]
      (Except.ok [("flags", flags2)], trace)

/-- `FlagsForFile` proper: the value returned (or the exception raised). -/
def FlagsForFile (env : Env) (filename : String)
    (kwargs : List (String × String)) :
    Except PyError (List (String × List String)) :=
  (FlagsForFileRun env filename kwargs).1

/-- The bytes of an ASCII string, for describing helper-process output. -/
def asciiBytes (s : String) : List Nat := s.data.map Char.toNat

example : utf8Decode (asciiBytes "-I/a -I/b") = some "-I/a -I/b" := by rfl

example : pySplit " -I/a  -I/b " = ["-I/a", "-I/b"] := by rfl

example : dirname "/proj/.ycm_extra_conf.py" = "/proj" := by rfl

example : joinPath "/proj" "include" = "/proj/include" := by rfl

example :
    FlagsForFile (Env.mk true 0 (asciiBytes "-I/py1") "/proj/.ycm_extra_conf.py")
      "a.cpp" [] =
    Except.ok [("flags",
      ["-std=c++14", "-I/usr/local/include", "-I.", "-I/py1", "-I/proj/include"])] := by
  rfl

/-- Characterization of a successful run: when the helper program is found,
exits with status 0 and its output decodes, the returned dictionary holds
the three fixed flags, then the whitespace-split helper tokens in order,
then the project-local include flag. -/
theorem flagsForFile_ok_spec (env : Env) (f : String)
    (k : List (String × String)) (text : String)
    (hf : env.helperFound = true) (he : env.helperExit = 0)
    (hd : utf8Decode env.helperStdout = some text) :
    FlagsForFile env f k =
      Except.ok [("flags",
        ["-std=c++14", "-I/usr/local/include", "-I."] ++ pySplit text ++
          ["-I" ++ joinPath (dirname env.confRealpath) "include"])] := by
  simp [FlagsForFile, FlagsForFileRun, check_output, hf, he, hd]

/-- A failed run yields an `Except.error`, and hence no dictionary. -/
theorem flagsForFile_error_spec (env : Env) (f : String)
    (k : List (String × String)) :
    (env.helperFound = false →
      FlagsForFile env f k = Except.error PyError.fileNotFoundError) ∧
    (env.helperFound = true → env.helperExit ≠ 0 →
      FlagsForFile env f k =
        Except.error (PyError.calledProcessError env.helperExit)) ∧
    (env.helperFound = true → env.helperExit = 0 →
      utf8Decode env.helperStdout = none →
      FlagsForFile env f k = Except.error PyError.unicodeDecodeError) := by
  refine ⟨fun hf => ?_, fun hf he => ?_, fun hf he hd => ?_⟩
  · simp [FlagsForFile, FlagsForFileRun, check_output, hf]
  · simp [FlagsForFile, FlagsForFileRun, check_output, hf, he]
  · simp [FlagsForFile, FlagsForFileRun, check_output, hf, he, hd]

/-- Inversion of a successful run: a returned dictionary can only arise
from a found helper that exited with status 0 and whose output decoded,
and it has exactly the shape of `flagsForFile_ok_spec`. -/
theorem flagsForFile_ok_inv (env : Env) (f : String)
    (k : List (String × String)) (d : List (String × List String))
    (h : FlagsForFile env f k = Except.ok d) :
    ∃ text, env.helperFound = true ∧ env.helperExit = 0 ∧
      utf8Decode env.helperStdout = some text ∧
      d = [("flags",
        ["-std=c++14", "-I/usr/local/include", "-I."] ++ pySplit text ++
          ["-I" ++ joinPath (dirname env.confRealpath) "include"])] := by
  by_cases hf : env.helperFound = true
  · by_cases he : env.helperExit = 0
    · cases hd : utf8Decode env.helperStdout with
      | none =>
        have herr := (flagsForFile_error_spec env f k).2.2 hf he hd
        rw [h] at herr
        exact Except.noConfusion herr
      | some text =>
        have hs := flagsForFile_ok_spec env f k text hf he hd
        rw [h] at hs
        exact ⟨text, hf, he, rfl, Except.ok.inj hs⟩
    · have herr := (flagsForFile_error_spec env f k).2.1 hf he
      rw [h] at herr
      exact Except.noConfusion herr
  · have hf0 : env.helperFound = false := by
      cases hfd : env.helperFound with
      | false => rfl
      | true => exact absurd hfd hf
    have herr := (flagsForFile_error_spec env f k).1 hf0
    rw [h] at herr
    exact Except.noConfusion herr

/-- Every token produced by the accumulator worker of `str.split()` is
non-empty: tokens are only emitted from a non-empty accumulator. -/
theorem pySplitAux_mem_ne_empty (l : List Char) :
    ∀ (acc : List Char) (t : String), t ∈ pySplitAux l acc → t.data ≠ [] := by
  induction l with
  | nil =>
    intro acc t ht
    unfold pySplitAux at ht
    by_cases hacc : acc.isEmpty
    · simp [hacc] at ht
    · simp [hacc] at ht
      subst ht
      simp
      intro hcon
      exact hacc (by simp [List.isEmpty_iff, hcon])
  | cons c rest ih =>
    intro acc t ht
    unfold pySplitAux at ht
    by_cases hsp : isPySpace c
    · by_cases hacc : acc.isEmpty
      · rw [if_pos hsp, if_pos hacc] at ht
        exact ih [] t ht
      · rw [if_pos hsp, if_neg hacc] at ht
        cases ht with
        | head =>
          simp
          intro hcon
          exact hacc (by simp [List.isEmpty_iff, hcon])
        | tail _ hmem => exact ih [] t hmem
    · rw [if_neg hsp] at ht
      exact ih (c :: acc) t ht

/-- When every character is whitespace, `str.split()` with an empty
accumulator yields no token at all. -/
theorem pySplitAux_all_space (l : List Char)
    (h : ∀ c ∈ l, isPySpace c = true) : pySplitAux l [] = [] := by
  induction l with
  | nil => rfl
  | cons c rest ih =>
    unfold pySplitAux
    rw [if_pos (h c (List.mem_cons_self c rest))]
    simp only [List.isEmpty_nil, if_true]
    exact ih (fun x hx => h x (List.mem_cons_of_mem c hx))

/-- Joining any directory with the component `"include"` yields a path
whose characters end with those of `"include"`. -/
theorem joinPath_include_suffix (a : String) :
    List.IsSuffix ("include".data) ((joinPath a "include").data) := by
  unfold joinPath
  have hsw : startsWithSlash "include" = false := by rfl
  rw [hsw]
  simp only [Bool.false_eq_true, if_false]
  by_cases hc : (a.data.isEmpty || endsWithSlash a) = true
  · rw [if_pos hc, String.data_append]
    exact List.suffix_append a.data "include".data
  · rw [if_neg hc, String.data_append]
    exact List.suffix_append (a ++ "/").data "include".data

/-- Claim C1: for every input file path and every set of extra named
options, whenever `FlagsForFile` returns a mapping, that mapping contains
the key "flags" bound to a sequence of strings and contains exactly that
one key, regardless of the path's validity. -/
theorem claim_C1_exactly_one_key (env : Env) (filename : String)
    (kwargs : List (String × String)) (d : List (String × List String))
    (h : FlagsForFile env filename kwargs = Except.ok d) :
    ∃ fl : List String, d = [("flags", fl)] := by
  obtain ⟨text, _, _, _, hd⟩ := flagsForFile_ok_inv env filename kwargs d h
  exact ⟨_, hd⟩

/-- Concrete instance of C1. -/
theorem claim_C1_witness :
    ∃ fl : List String,
      [("flags", ["-std=c++14", "-I/usr/local/include", "-I.", "-I/py1",
        "-I/proj/include"])] = [("flags", fl)] :=
  claim_C1_exactly_one_key
    (Env.mk true 0 (asciiBytes "-I/py1") "/proj/.ycm_extra_conf.py")
    "a.cpp" [] _ (by rfl)

/-- Claim C2 counterexample: the base list has three fixed tokens, not
two.  With helper output "-I/fake/include1 -I/fake/include2", the entry at
position 3 of the returned sequence (index 2) is the fixed token "-I.",
not the first helper token, so the helper tokens do not occupy positions
3 and 4. -/
theorem claim_C2_counterexample :
    FlagsForFile
        (Env.mk true 0 (asciiBytes "-I/fake/include1 -I/fake/include2")
          "/proj/.ycm_extra_conf.py") "file.cpp" [] =
      Except.ok [("flags", ["-std=c++14", "-I/usr/local/include", "-I.",
        "-I/fake/include1", "-I/fake/include2", "-I/proj/include"])] ∧
    ["-std=c++14", "-I/usr/local/include", "-I.", "-I/fake/include1",
        "-I/fake/include2", "-I/proj/include"][2]? ≠ some "-I/fake/include1" :=
  ⟨by rfl, by decide⟩

/-- Claim C2 (amended): the flag sequence is initialized with exactly
three fixed tokens before any helper token is appended; if the helper
emits exactly "-I/fake/include1 -I/fake/include2", those two tokens appear
in that order immediately after the three fixed tokens, at positions 4
and 5 of the returned sequence. -/
theorem claim_C2_amended_helper_tokens (env : Env) (filename : String)
    (kwargs : List (String × String))
    (hf : env.helperFound = true) (he : env.helperExit = 0)
    (hs : env.helperStdout = asciiBytes "-I/fake/include1 -I/fake/include2") :
    ∃ fl, FlagsForFile env filename kwargs = Except.ok [("flags", fl)] ∧
      fl.take 5 = ["-std=c++14", "-I/usr/local/include", "-I.",
        "-I/fake/include1", "-I/fake/include2"] := by
  have hd : utf8Decode env.helperStdout =
      some "-I/fake/include1 -I/fake/include2" := by rw [hs]; rfl
  exact ⟨_, flagsForFile_ok_spec env filename kwargs _ hf he hd, rfl⟩

/-- Concrete instance of the amended C2. -/
theorem claim_C2_amended_witness :
    ∃ fl, FlagsForFile
        (Env.mk true 0 (asciiBytes "-I/fake/include1 -I/fake/include2")
          "/proj/.ycm_extra_conf.py") "file.cpp" [] =
        Except.ok [("flags", fl)] ∧
      fl.take 5 = ["-std=c++14", "-I/usr/local/include", "-I.",
        "-I/fake/include1", "-I/fake/include2"] :=
  claim_C2_amended_helper_tokens
    (Env.mk true 0 (asciiBytes "-I/fake/include1 -I/fake/include2")
      "/proj/.ycm_extra_conf.py") "file.cpp" [] rfl rfl rfl

/-- Claim C3: for every invocation that returns, the first two entries of
the flag sequence are the fixed standard-selector and the fixed
system-include-path token, in that order. -/
theorem claim_C3_first_two_fixed (env : Env) (filename : String)
    (kwargs : List (String × String)) (fl : List String)
    (h : FlagsForFile env filename kwargs = Except.ok [("flags", fl)]) :
    fl.take 2 = ["-std=c++14", "-I/usr/local/include"] := by
  obtain ⟨text, _, _, _, hd⟩ :=
    flagsForFile_ok_inv env filename kwargs [("flags", fl)] h
  have hfl : fl = ["-std=c++14", "-I/usr/local/include", "-I."] ++
      pySplit text ++
      ["-I" ++ joinPath (dirname env.confRealpath) "include"] := by
    simpa using hd
  rw [hfl]
  rfl

/-- Concrete instance of C3. -/
theorem claim_C3_witness :
    (["-std=c++14", "-I/usr/local/include", "-I.", "-I/py1",
      "-I/proj/include"] : List String).take 2 =
      ["-std=c++14", "-I/usr/local/include"] :=
  claim_C3_first_two_fixed
    (Env.mk true 0 (asciiBytes "-I/py1") "/proj/.ycm_extra_conf.py")
    "a.cpp" [] _ (by rfl)

/-- Claim C4: the appended project-local include flag is the flag for the
directory obtained by joining the resolved directory of the configuration
file itself with the fixed name "include"; it is the last flag, its path
ends with "include", and it is derived from the configuration file's
resolved directory, not from the input file path. -/
theorem claim_C4_project_include (env : Env) (filename : String)
    (kwargs : List (String × String)) (d : List (String × List String))
    (h : FlagsForFile env filename kwargs = Except.ok d) :
    ∃ fl, d = [("flags", fl)] ∧
      fl.getLast? =
        some ("-I" ++ joinPath (dirname env.confRealpath) "include") ∧
      List.IsSuffix ("include".data)
        (("-I" ++ joinPath (dirname env.confRealpath) "include").data) := by
  obtain ⟨text, _, _, _, hd⟩ := flagsForFile_ok_inv env filename kwargs d h
  refine ⟨_, hd, ?_, ?_⟩
  · exact List.getLast?_concat _
  · rw [String.data_append]
    exact (joinPath_include_suffix (dirname env.confRealpath)).trans
      (List.suffix_append "-I".data
        (joinPath (dirname env.confRealpath) "include").data)

/-- Concrete instance of C4. -/
theorem claim_C4_witness :
    ∃ fl, [("flags", ["-std=c++14", "-I/usr/local/include", "-I.",
        "-I/py1", "-I/proj/include"])] = [("flags", fl)] ∧
      fl.getLast? =
        some ("-I" ++ joinPath (dirname "/proj/.ycm_extra_conf.py") "include") ∧
      List.IsSuffix ("include".data)
        (("-I" ++ joinPath (dirname "/proj/.ycm_extra_conf.py") "include").data) :=
  claim_C4_project_include
    (Env.mk true 0 (asciiBytes "-I/py1") "/proj/.ycm_extra_conf.py")
    "a.cpp" [] _ (by rfl)

/-- Claim C5: if the helper program is not found, exits with a non-zero
status, or produces output that does not decode as UTF-8, `FlagsForFile`
propagates an error and produces no result mapping: no fallback flag list
exists. -/
theorem claim_C5_error_propagation (env : Env) (filename : String)
    (kwargs : List (String × String))
    (h : env.helperFound = false ∨ env.helperExit ≠ 0 ∨
      utf8Decode env.helperStdout = none) :
    ∃ e : PyError, FlagsForFile env filename kwargs = Except.error e := by
  obtain h1 | h2 | h3 := h
  · exact ⟨_, (flagsForFile_error_spec env filename kwargs).1 h1⟩
  · by_cases hf : env.helperFound = true
    · exact ⟨_, (flagsForFile_error_spec env filename kwargs).2.1 hf h2⟩
    · exact ⟨_, (flagsForFile_error_spec env filename kwargs).1
        (Bool.eq_false_iff.mpr hf)⟩
  · by_cases hf : env.helperFound = true
    · by_cases he : env.helperExit = 0
      · exact ⟨_, (flagsForFile_error_spec env filename kwargs).2.2 hf he h3⟩
      · exact ⟨_, (flagsForFile_error_spec env filename kwargs).2.1 hf he⟩
    · exact ⟨_, (flagsForFile_error_spec env filename kwargs).1
        (Bool.eq_false_iff.mpr hf)⟩

/-- Concrete instance of C5: a helper exiting with status 1. -/
theorem claim_C5_witness :
    ∃ e : PyError,
      FlagsForFile (Env.mk true 1 [] "/proj/.ycm_extra_conf.py") "a.cpp" [] =
        Except.error e :=
  claim_C5_error_propagation
    (Env.mk true 1 [] "/proj/.ycm_extra_conf.py") "a.cpp" []
    (Or.inr (Or.inl (by decide)))

/-- Claim C6: in an unchanged environment, two invocations with different
input file paths and different extra named options return identical
results: neither argument affects the output. -/
theorem claim_C6_path_independent (env : Env) (f1 f2 : String)
    (k1 k2 : List (String × String)) :
    FlagsForFile env f1 k1 = FlagsForFile env f2 k2 := rfl

/-- Claim C7: the helper's captured standard output is decoded from UTF-8
and split on whitespace into tokens, and those tokens are appended to the
flag sequence after the three fixed flags, preserving exactly the order in
which the helper emitted them. -/
theorem claim_C7_decode_split_order (env : Env) (filename : String)
    (kwargs : List (String × String)) (text : String)
    (hf : env.helperFound = true) (he : env.helperExit = 0)
    (hd : utf8Decode env.helperStdout = some text) :
    FlagsForFile env filename kwargs = Except.ok [("flags",
      ["-std=c++14", "-I/usr/local/include", "-I."] ++ pySplit text ++
        ["-I" ++ joinPath (dirname env.confRealpath) "include"])] :=
  flagsForFile_ok_spec env filename kwargs text hf he hd

/-- Concrete instance of C7: two helper tokens, kept in emitted order. -/
theorem claim_C7_witness :
    FlagsForFile
        (Env.mk true 0 (asciiBytes "-I/pyA -I/pyB") "/proj/.ycm_extra_conf.py")
        "a.cpp" [] =
      Except.ok [("flags", ["-std=c++14", "-I/usr/local/include", "-I.",
        "-I/pyA", "-I/pyB", "-I/proj/include"])] :=
  claim_C7_decode_split_order
    (Env.mk true 0 (asciiBytes "-I/pyA -I/pyB") "/proj/.ycm_extra_conf.py")
    "a.cpp" [] "-I/pyA -I/pyB" rfl rfl (by rfl)

/-- Claim C8: each invocation spawns exactly one child process, the helper
invocation, and performs no other external effect: no write to any
persistent store and no network activity appear in the effect trace. -/
theorem claim_C8_single_spawn_no_other_effects (env : Env)
    (filename : String) (kwargs : List (String × String)) :
    (FlagsForFileRun env filename kwargs).2 =
      [Effect.spawn ["python3-config", "--includes"]] ∧
    (FlagsForFileRun env filename kwargs).1 = FlagsForFile env filename kwargs := by
  refine ⟨?_, rfl⟩
  rcases hc : check_output env with e | outBytes
  · simp [FlagsForFileRun, hc]
  · rcases h2 : utf8Decode outBytes with _ | t <;>
      simp [FlagsForFileRun, hc, h2]

/-- Claim C9: the third entry of every returned flag sequence is the
current-directory include flag "-I.", placed before any helper token: the
base list holds three fixed tokens, not two. -/
theorem claim_C9_third_fixed_token (env : Env) (filename : String)
    (kwargs : List (String × String)) (fl : List String)
    (h : FlagsForFile env filename kwargs = Except.ok [("flags", fl)]) :
    (fl.drop 2).head? = some "-I." ∧
    fl.take 3 = ["-std=c++14", "-I/usr/local/include", "-I."] ∧
    ∃ text, utf8Decode env.helperStdout = some text ∧
      fl.drop 3 = pySplit text ++
        ["-I" ++ joinPath (dirname env.confRealpath) "include"] := by
  obtain ⟨text, _, _, hd, hfl⟩ :=
    flagsForFile_ok_inv env filename kwargs [("flags", fl)] h
  have hfl2 : fl = ["-std=c++14", "-I/usr/local/include", "-I."] ++
      pySplit text ++
      ["-I" ++ joinPath (dirname env.confRealpath) "include"] := by
    simpa using hfl
  subst hfl2
  exact ⟨rfl, rfl, text, hd, rfl⟩

/-- Concrete instance of C9. -/
theorem claim_C9_witness :
    ((["-std=c++14", "-I/usr/local/include", "-I.", "-I/py1",
        "-I/proj/include"] : List String).drop 2).head? = some "-I." ∧
    (["-std=c++14", "-I/usr/local/include", "-I.", "-I/py1",
        "-I/proj/include"] : List String).take 3 =
      ["-std=c++14", "-I/usr/local/include", "-I."] ∧
    ∃ text, utf8Decode (asciiBytes "-I/py1") = some text ∧
      (["-std=c++14", "-I/usr/local/include", "-I.", "-I/py1",
        "-I/proj/include"] : List String).drop 3 = pySplit text ++
        ["-I" ++ joinPath (dirname "/proj/.ycm_extra_conf.py") "include"] :=
  claim_C9_third_fixed_token
    (Env.mk true 0 (asciiBytes "-I/py1") "/proj/.ycm_extra_conf.py")
    "a.cpp" [] _ (by rfl)

/-- Claim C10: whitespace-splitting of the decoded helper output never
contributes an empty token, and an output that is empty or consists only
of whitespace contributes zero tokens. -/
theorem claim_C10_no_empty_tokens (s : String) :
    (∀ t ∈ pySplit s, t ≠ "") ∧
    ((∀ c ∈ s.data, isPySpace c = true) → pySplit s = []) := by
  constructor
  · intro t ht hempty
    subst hempty
    exact pySplitAux_mem_ne_empty s.data [] "" ht rfl
  · intro hall
    exact pySplitAux_all_space s.data hall

/-- Concrete instance of C10: a real token is non-empty, and a pure
whitespace output splits into no tokens at all. -/
theorem claim_C10_witness :
    ("-I/py1" : String) ≠ "" ∧ pySplit "  \t " = [] :=
  ⟨(claim_C10_no_empty_tokens " -I/py1 ").1 "-I/py1" (by decide),
   (claim_C10_no_empty_tokens "  \t ").2 (by decide)⟩
